import Mathlib

/-!
Verification development for the LVILC example script (`examples.py`).

The script is glue code: it constructs a data loader, an MCMC driver and a
physical model (all implemented in collaborator modules that are not part of
this repository), calls into them, prints summaries and saves one plot.

We embed the script shallowly as a trace-producing computation: every
observable action of the script (a print, a collaborator call, a file save)
is recorded as an `Event`, and Python exception propagation is modelled by
an `Except String` result threaded through the computation.  The external
collaborators are abstracted by a structure of possibly-failing functions,
since their code is not in the repository.
-/

namespace LVILC

/-- Observable events of a run of the script: prints (with their dynamic
payloads), collaborator calls (with their arguments), applications of
`np.log10` (with the argument), and file saves. -/
inductive Event where
  | beginExample (n : Nat)
  | printMsg (s : String)
  | printInit (H0 M_bh t_fall : ℚ)
  | printStat (param : String) (median std : ℚ)
  | printPred (z d_L mu H_z : ℚ)
  | printCmp (z : ℚ)
  | printSens (label : String) (value mu : ℚ)
  | printError (n : Nat) (msg : String)
  | constructData
  | constructMCMC
  | runMCMCCall (initial : Option (ℚ × ℚ × ℚ)) (nwalkers nsteps burn_in : Nat) (progress : Bool)
  | getResultsCall
  | constructModel (H0 M_bh t_fall : ℚ)
  | luminosityDistanceCall (z : ℚ)
  | distanceModulusCall (z : ℚ)
  | hubbleParameterCall (z : ℚ)
  | log10Call (x : ℚ)
  | savefigCall (filename : String)
deriving DecidableEq, Repr

/-- A computation of the script: its result (a value, or a raised exception
message) together with the trace of events it produced before finishing. -/
def Tr (α : Type) : Type := Except String α × List Event

/-- Return a value, producing no events. -/
def pureTr {α : Type} (a : α) : Tr α := (Except.ok a, [])

/-- Emit one event (a print) and succeed. -/
def emit (e : Event) : Tr Unit := (Except.ok (), [e])

/-- A collaborator call: the call itself is recorded as an event, and the
answer of the collaborator (a value or an exception) becomes the result. -/
def callTr {α : Type} (e : Event) (r : Except String α) : Tr α := (r, [e])

/-- Raise an exception from the own code of the script (e.g. a KeyError). -/
def raiseTr {α : Type} (msg : String) : Tr α := (Except.error msg, [])

/-- Sequencing: if the first computation raises, the rest is skipped and the
partial trace is kept; otherwise the traces are concatenated. -/
def bindTr {α β : Type} (x : Tr α) (f : α → Tr β) : Tr β :=
  match x.1 with
  | Except.error e => (Except.error e, x.2)
  | Except.ok a => ((f a).1, x.2 ++ (f a).2)

/-- The dictionary returned by the MCMC results accessor: parameter name to
(median, std), as an association list. -/
def Results : Type := List (String × (ℚ × ℚ))

/-- Modelled from the spec: the external collaborators are not part of the
repository (the data loader `CosmologyData`, the MCMC driver `LVILC_MCMC`
with its `run_mcmc`, `get_results` and `param_names`, the physical model
`LVILCModel` with its `luminosity_distance`, `distance_modulus` and
`hubble_parameter` queries, and the matplotlib `savefig`).  Each operation may
return a value or raise; `param_names` is an attribute and cannot raise. -/
structure Collab (Data MCMC Sampler Model : Type) where
  CosmologyData : Except String Data
  LVILC_MCMC : Data → Except String MCMC
  run_mcmc : MCMC → Option (ℚ × ℚ × ℚ) → Nat → Nat → Nat → Bool → Except String Sampler
  get_results : MCMC → Sampler → Except String Results
  param_names : MCMC → List String
  LVILCModel : ℚ → ℚ → ℚ → Except String Model
  luminosity_distance : Model → ℚ → Except String ℚ
  distance_modulus : Model → ℚ → Except String ℚ
  hubble_parameter : Model → ℚ → Except String ℚ
  savefig : String → Except String Unit

variable {Data MCMC Sampler Model : Type}

/-- The results-printing loop shared by examples 1 and 2:
for each param in mcmc.param_names, print the median and std entries of results[param].
Indexing a missing key raises a `KeyError`. -/
def printStats : List String → Results → Tr Unit
  | [], _ => pureTr ()
  | p :: rest, results =>
    match results.lookup p with
    | some s => bindTr (emit (Event.printStat p s.1 s.2)) fun _ => printStats rest results
    | none => raiseTr ("KeyError: " ++ p)

/-- The body of example 1, after its banner print. -/
def example_basic_mcmc_body (c : Collab Data MCMC Sampler Model) : Tr Results :=
  bindTr (callTr Event.constructData c.CosmologyData) fun data =>
  bindTr (callTr Event.constructMCMC (c.LVILC_MCMC data)) fun mcmc =>
  bindTr (callTr (Event.runMCMCCall none 16 1000 200 false)
      (c.run_mcmc mcmc none 16 1000 200 false)) fun sampler =>
  bindTr (callTr Event.getResultsCall (c.get_results mcmc sampler)) fun results =>
  bindTr (emit (Event.printMsg "Results:")) fun _ =>
  bindTr (printStats (c.param_names mcmc) results) fun _ =>
  pureTr results

/-- Example 1: basic MCMC run with default settings. -/
def example_basic_mcmc (c : Collab Data MCMC Sampler Model) : Tr Results :=
  bindTr (emit (Event.beginExample 1)) fun _ => example_basic_mcmc_body c

/-- The custom initial parameter vector of example 2. -/
def initial_params : ℚ × ℚ × ℚ := (-8.0, 5e23, 14.5)

/-- The body of example 2, after its banner print. -/
def example_custom_initial_params_body (c : Collab Data MCMC Sampler Model) : Tr Results :=
  bindTr (emit (Event.printInit initial_params.1 initial_params.2.1 initial_params.2.2)) fun _ =>
  bindTr (callTr Event.constructData c.CosmologyData) fun data =>
  bindTr (callTr Event.constructMCMC (c.LVILC_MCMC data)) fun mcmc =>
  bindTr (callTr (Event.runMCMCCall (some initial_params) 16 1000 200 false)
      (c.run_mcmc mcmc (some initial_params) 16 1000 200 false)) fun sampler =>
  bindTr (callTr Event.getResultsCall (c.get_results mcmc sampler)) fun results =>
  bindTr (emit (Event.printMsg "Results:")) fun _ =>
  bindTr (printStats (c.param_names mcmc) results) fun _ =>
  pureTr results

/-- Example 2: MCMC with custom initial parameters. -/
def example_custom_initial_params (c : Collab Data MCMC Sampler Model) : Tr Results :=
  bindTr (emit (Event.beginExample 2)) fun _ => example_custom_initial_params_body c

/-- The redshift list of example 3. -/
def redshifts : List ℚ := [0.1, 0.5, 1.0, 1.5, 2.0]

/-- The prediction loop of example 3: for each redshift query luminosity
distance, distance modulus and Hubble parameter, then print the row. -/
def predictLoop (c : Collab Data MCMC Sampler Model) (model : Model) : List ℚ → Tr Unit
  | [] => pureTr ()
  | z :: rest =>
    bindTr (callTr (Event.luminosityDistanceCall z) (c.luminosity_distance model z)) fun d_L =>
    bindTr (callTr (Event.distanceModulusCall z) (c.distance_modulus model z)) fun mu =>
    bindTr (callTr (Event.hubbleParameterCall z) (c.hubble_parameter model z)) fun H_z =>
    bindTr (emit (Event.printPred z d_L mu H_z)) fun _ =>
    predictLoop c model rest

/-- The body of example 3, after its banner print. -/
def example_model_prediction_body (c : Collab Data MCMC Sampler Model) : Tr Model :=
  bindTr (callTr (Event.constructModel (-6.73) 1e23 13.8)
      (c.LVILCModel (-6.73) 1e23 13.8)) fun model =>
  bindTr (emit (Event.printMsg "Model predictions:")) fun _ =>
  bindTr (predictLoop c model redshifts) fun _ =>
  pureTr model

/-- Example 3: model predictions at the theoretical LVILC values. -/
def example_model_prediction (c : Collab Data MCMC Sampler Model) : Tr Model :=
  bindTr (emit (Event.beginExample 3)) fun _ => example_model_prediction_body c

/-- Embeds `np.linspace(a, b, n)`: `n` evenly spaced points from `a` to `b`. -/
def linspace (a b : ℚ) (n : Nat) : List ℚ :=
  (List.range n).map fun (i : Nat) => a + (b - a) * (i : ℚ) / ((n : ℚ) - 1)

/-- The redshift grid of example 4: `np.linspace(0.1, 2.0, 20)`. -/
def z_range : List ℚ := linspace 0.1 2.0 20

/-- The argument to which the local ΛCDM helper of example 4 applies `np.log10`:
`d_L = 3000 * z * (1 + z/2)`. -/
def lcdmArg (z : ℚ) : ℚ := 3000 * z * (1 + z / 2)

/-- The local helper `lcdm_distance_modulus(z, H0=70.0)` of example 4:
`5 * np.log10(3000 * z * (1 + z/2)) + 25`, with `np.log10` as `Real.logb 10`.
The parameter `H0` (default 70.0 in the source) is never used in the body. -/
noncomputable def lcdm_distance_modulus (z H0 : ℝ) : ℝ :=
  5 * Real.logb 10 (3000 * z * (1 + z / 2)) + 25

/-- Embeds `range(start, stop, step)` for a positive step, as in Python. -/
def rangeStep (start stop step : Nat) : List Nat :=
  (List.range ((stop - start + step - 1) / step)).map fun k => start + k * step

/-- A Python list comprehension over a trace computation, left to right. -/
def mapTr {α β : Type} (f : α → Tr β) : List α → Tr (List β)
  | [] => pureTr []
  | x :: rest =>
    bindTr (f x) fun y =>
    bindTr (mapTr f rest) fun ys =>
    pureTr (y :: ys)

/-- The comparison-table loop of example 4: `for i in range(0, len(z_range), 4)`,
printing a row built from `z_range[i]`, `lvilc_mu[i]` and `lcdm_mu[i]`
(indexing out of range raises). -/
def printCmpLoop (zr lv lc : List ℚ) : List Nat → Tr Unit
  | [] => pureTr ()
  | i :: rest =>
    match zr.get? i, lv.get? i, lc.get? i with
    | some z, some _, some _ =>
        bindTr (emit (Event.printCmp z)) fun _ => printCmpLoop zr lv lc rest
    | _, _, _ => raiseTr "IndexError"

/-- Example 4: compare LVILC with the local ΛCDM approximation and save the
comparison plot.  The `lcdm_mu` comprehension records each `np.log10`
application with its argument.  This is the body after the banner print. -/
def example_compare_models_body (c : Collab Data MCMC Sampler Model) : Tr Model :=
  bindTr (callTr (Event.constructModel (-6.73) 1e23 13.8)
      (c.LVILCModel (-6.73) 1e23 13.8)) fun lvilc_model =>
  bindTr (mapTr (fun z => callTr (Event.distanceModulusCall z)
      (c.distance_modulus lvilc_model z)) z_range) fun lvilc_mu =>
  bindTr (mapTr (fun z => bindTr (emit (Event.log10Call (lcdmArg z))) fun _ =>
      pureTr (lcdmArg z)) z_range) fun lcdm_mu =>
  bindTr (emit (Event.printMsg "Distance modulus comparison:")) fun _ =>
  bindTr (printCmpLoop z_range lvilc_mu lcdm_mu (rangeStep 0 z_range.length 4)) fun _ =>
  bindTr (callTr (Event.savefigCall "model_comparison_example.png")
      (c.savefig "model_comparison_example.png")) fun _ =>
  bindTr (emit (Event.printMsg "Comparison plot saved to: model_comparison_example.png")) fun _ =>
  pureTr lvilc_model

/-- Example 4: compare LVILC with the local ΛCDM approximation and save the
comparison plot. -/
def example_compare_models (c : Collab Data MCMC Sampler Model) : Tr Model :=
  bindTr (emit (Event.beginExample 4)) fun _ => example_compare_models_body c

/-- The base parameters and test redshift of example 5. -/
def H0_base : ℚ := -6.73

/-- Base black-hole mass of example 5. -/
def M_bh_base : ℚ := 1e23

/-- Base infall timescale of example 5. -/
def t_fall_base : ℚ := 13.8

/-- Test redshift of example 5. -/
def z_test : ℚ := 1.0

/-- The literal H0 sweep list of example 5. -/
def H0_range : List ℚ := [-5.0, -6.73, -8.0, -10.0]

/-- The literal M_bh sweep list of example 5. -/
def M_bh_range : List ℚ := [1e22, 1e23, 1e24, 1e25]

/-- The literal t_fall sweep list of example 5. -/
def t_fall_range : List ℚ := [12.0, 13.8, 15.0, 17.0]

/-- One sweep of example 5: for each value build the full parameter triple,
construct a fresh model, evaluate its distance modulus at `z_test`, print. -/
def sensLoop (c : Collab Data MCMC Sampler Model) (label : String)
    (params : ℚ → ℚ × ℚ × ℚ) : List ℚ → Tr Unit
  | [] => pureTr ()
  | v :: rest =>
    bindTr (callTr (Event.constructModel (params v).1 (params v).2.1 (params v).2.2)
        (c.LVILCModel (params v).1 (params v).2.1 (params v).2.2)) fun model =>
    bindTr (callTr (Event.distanceModulusCall z_test)
        (c.distance_modulus model z_test)) fun mu =>
    bindTr (emit (Event.printSens label v mu)) fun _ =>
    sensLoop c label params rest

/-- The body of example 5, after its banner print: three sweeps in order. -/
def example_parameter_sensitivity_body (c : Collab Data MCMC Sampler Model) : Tr Unit :=
  bindTr (emit (Event.printMsg "Sensitivity to H0 (at z=1.0):")) fun _ =>
  bindTr (sensLoop c "H0" (fun v => (v, M_bh_base, t_fall_base)) H0_range) fun _ =>
  bindTr (emit (Event.printMsg "Sensitivity to M_bh (at z=1.0):")) fun _ =>
  bindTr (sensLoop c "M_bh" (fun v => (H0_base, v, t_fall_base)) M_bh_range) fun _ =>
  bindTr (emit (Event.printMsg "Sensitivity to t_fall (at z=1.0):")) fun _ =>
  bindTr (sensLoop c "t_fall" (fun v => (H0_base, M_bh_base, v)) t_fall_range) fun _ =>
  pureTr ()

/-- Example 5: parameter sensitivity, three sweeps in order. -/
def example_parameter_sensitivity (c : Collab Data MCMC Sampler Model) : Tr Unit :=
  bindTr (emit (Event.beginExample 5)) fun _ => example_parameter_sensitivity_body c

/-- One `try/except` block of the `__main__` section: run the example; if it
raises, print the exception message and continue. -/
def tryExample {α : Type} (n : Nat) (x : Tr α) : Tr Unit :=
  match x.1 with
  | Except.ok _ => (Except.ok (), x.2)
  | Except.error e => (Except.ok (), x.2 ++ [Event.printError n e])

/-- The `__main__` section: a banner, the five examples each in its own
`try/except`, and a closing banner. -/
def runMain (c : Collab Data MCMC Sampler Model) : Tr Unit :=
  bindTr (emit (Event.printMsg "LVILC MCMC Examples")) fun _ =>
  bindTr (tryExample 1 (example_basic_mcmc c)) fun _ =>
  bindTr (tryExample 2 (example_custom_initial_params c)) fun _ =>
  bindTr (tryExample 3 (example_model_prediction c)) fun _ =>
  bindTr (tryExample 4 (example_compare_models c)) fun _ =>
  bindTr (tryExample 5 (example_parameter_sensitivity c)) fun _ =>
  emit (Event.printMsg "All examples completed!")

/-! ### Trace projections -/

/-- Projection selecting example markers. -/
def markerFn : Event → Option Nat :=
  fun e => match e with | Event.beginExample n => some n | _ => none

/-- The example markers appearing in a trace, in order: each example function
prints its own banner first, recorded as `beginExample n`. -/
def exampleMarkers (t : List Event) : List Nat := t.filterMap markerFn

/-- Projection selecting printed summary-statistics rows. -/
def statFn : Event → Option (String × (ℚ × ℚ)) :=
  fun e => match e with
    | Event.printStat p m s => some (p, (m, s))
    | _ => none

/-- The `printStat` rows of a trace: parameter name with the printed median
and standard deviation. -/
def statEvents (t : List Event) : List (String × (ℚ × ℚ)) := t.filterMap statFn

/-- The model constructions and distance-modulus queries of a trace, in
order (the shape of a sensitivity sweep). -/
def sweepEvents (t : List Event) : List Event :=
  t.filter fun e => match e with
    | Event.constructModel _ _ _ => true
    | Event.distanceModulusCall _ => true
    | _ => false

/-- The model constructions and all three kinds of model queries of a trace,
in order. -/
def queryEvents (t : List Event) : List Event :=
  t.filter fun e => match e with
    | Event.constructModel _ _ _ => true
    | Event.luminosityDistanceCall _ => true
    | Event.distanceModulusCall _ => true
    | Event.hubbleParameterCall _ => true
    | _ => false

/-- Projection selecting saved file names. -/
def fileFn : Event → Option String :=
  fun e => match e with | Event.savefigCall f => some f | _ => none

/-- The file names passed to `savefig` over a trace: the files the script
writes. -/
def filesWritten (t : List Event) : List String := t.filterMap fileFn

/-- Projection selecting `np.log10` arguments. -/
def log10Fn : Event → Option ℚ :=
  fun e => match e with | Event.log10Call x => some x | _ => none

/-- The arguments to which `np.log10` is applied over a trace. -/
def log10Args (t : List Event) : List ℚ := t.filterMap log10Fn

/-! ### Concrete collaborators used to exercise the embedding -/

/-- A trivial total collaborator over unit types: every call succeeds and
the results dictionary carries the three standard parameter names. -/
def trivialCollab : Collab Unit Unit Unit Unit :=
  ⟨Except.ok (),
   fun _ => Except.ok (),
   fun _ _ _ _ _ _ => Except.ok (),
   fun _ _ => Except.ok
     [("H0", (-673/100, 1/2)), ("M_bh", (1e23, 1e22)), ("t_fall", (69/5, 1/2))],
   fun _ => ["H0", "M_bh", "t_fall"],
   fun _ _ _ => Except.ok (),
   fun _ _ => Except.ok 0,
   fun _ _ => Except.ok 0,
   fun _ _ => Except.ok 0,
   fun _ => Except.ok ()⟩

/-- The summary statistics of `trivialCollab` as a function of the
parameter name. -/
def statsTriv : String → ℚ × ℚ := fun p =>
  if p = "H0" then (-673/100, 1/2)
  else if p = "M_bh" then (1e23, 1e22)
  else (69/5, 1/2)

/-- A collaborator whose data loader construction raises. -/
def failCollab : Collab Unit Unit Unit Unit :=
  ⟨Except.error "no data",
   fun _ => Except.ok (),
   fun _ _ _ _ _ _ => Except.ok (),
   fun _ _ => Except.ok
     [("H0", (-673/100, 1/2)), ("M_bh", (1e23, 1e22)), ("t_fall", (69/5, 1/2))],
   fun _ => ["H0", "M_bh", "t_fall"],
   fun _ _ _ => Except.ok (),
   fun _ _ => Except.ok 0,
   fun _ _ => Except.ok 0,
   fun _ _ => Except.ok 0,
   fun _ => Except.ok ()⟩

/-- A collaborator in which every call returns a value without raising, but
the results accessor returns an empty dictionary. -/
def emptyResultsCollab : Collab Unit Unit Unit Unit :=
  ⟨Except.ok (),
   fun _ => Except.ok (),
   fun _ _ _ _ _ _ => Except.ok (),
   fun _ _ => Except.ok [],
   fun _ => ["H0", "M_bh", "t_fall"],
   fun _ _ _ => Except.ok (),
   fun _ _ => Except.ok 0,
   fun _ _ => Except.ok 0,
   fun _ _ => Except.ok 0,
   fun _ => Except.ok ()⟩

/-! ### Basic lemmas about the combinators -/

theorem bindTr_ok {α β : Type} (a : α) (t : List Event) (f : α → Tr β) :
    bindTr (Except.ok a, t) f = ((f a).1, t ++ (f a).2) := rfl

theorem bindTr_error {α β : Type} (e : String) (t : List Event) (f : α → Tr β) :
    bindTr (Except.error e, t) f = (Except.error e, t) := rfl

theorem bindTr_fst_ok {α β : Type} {x : Tr α} {f : α → Tr β} {b : β}
    (h : (bindTr x f).1 = Except.ok b) :
    ∃ a, x.1 = Except.ok a ∧ (f a).1 = Except.ok b ∧
      (bindTr x f).2 = x.2 ++ (f a).2 := by
  rcases x with ⟨r, t⟩
  cases r with
  | error e => simp [bindTr] at h
  | ok a =>
    refine ⟨a, rfl, ?_, rfl⟩
    simpa [bindTr] using h

/-- Every event of a computation satisfies `P`. -/
def EventsOk (P : Event → Prop) {α : Type} (x : Tr α) : Prop := ∀ e ∈ x.2, P e

theorem eventsOk_pureTr {P : Event → Prop} {α : Type} (a : α) :
    EventsOk P (pureTr a) := by
  intro e he; simp [pureTr] at he

theorem eventsOk_emit {P : Event → Prop} {e : Event} (h : P e) :
    EventsOk P (emit e) := by
  intro x hx; simp [emit] at hx; simpa [hx]

theorem eventsOk_callTr {P : Event → Prop} {α : Type} {e : Event}
    (r : Except String α) (h : P e) : EventsOk P (callTr e r) := by
  intro x hx; simp [callTr] at hx; simpa [hx]

theorem eventsOk_raiseTr {P : Event → Prop} {α : Type} (msg : String) :
    EventsOk P (raiseTr (α := α) msg) := by
  intro e he; simp [raiseTr] at he

theorem eventsOk_bindTr {P : Event → Prop} {α β : Type} {x : Tr α} {f : α → Tr β}
    (hx : EventsOk P x) (hf : ∀ a, EventsOk P (f a)) :
    EventsOk P (bindTr x f) := by
  rcases x with ⟨r, t⟩
  cases r with
  | error e => exact hx
  | ok a =>
    intro e he
    rw [bindTr_ok, List.mem_append] at he
    cases he with
    | inl h => exact hx e h
    | inr h => exact hf a e h

theorem eventsOk_tryExample {P : Event → Prop} {α : Type} {n : Nat} {x : Tr α}
    (hx : EventsOk P x) (hp : ∀ msg, P (Event.printError n msg)) :
    EventsOk P (tryExample n x) := by
  rcases x with ⟨r, t⟩
  cases r with
  | ok a => exact hx
  | error e =>
    intro ev hev
    simp only [tryExample, List.mem_append, List.mem_singleton] at hev
    cases hev with
    | inl h => exact hx ev h
    | inr h => rw [h]; exact hp e

theorem eventsOk_printStats {P : Event → Prop}
    (hp : ∀ p m s, P (Event.printStat p m s)) :
    ∀ (names : List String) (results : Results), EventsOk P (printStats names results) := by
  intro names
  induction names with
  | nil => intro results; exact eventsOk_pureTr ()
  | cons p rest ih =>
    intro results
    show EventsOk P (printStats (p :: rest) results)
    rw [printStats]
    cases h : results.lookup p with
    | some s =>
      exact eventsOk_bindTr (eventsOk_emit (hp p s.1 s.2)) fun _ => ih results
    | none => exact eventsOk_raiseTr _

theorem eventsOk_predictLoop {P : Event → Prop}
    (c : Collab Data MCMC Sampler Model) (model : Model)
    (h1 : ∀ z, P (Event.luminosityDistanceCall z))
    (h2 : ∀ z, P (Event.distanceModulusCall z))
    (h3 : ∀ z, P (Event.hubbleParameterCall z))
    (h4 : ∀ z a b d, P (Event.printPred z a b d)) :
    ∀ zs : List ℚ, EventsOk P (predictLoop c model zs) := by
  intro zs
  induction zs with
  | nil => exact eventsOk_pureTr ()
  | cons z rest ih =>
    rw [predictLoop]
    exact eventsOk_bindTr (eventsOk_callTr _ (h1 z)) fun _ =>
      eventsOk_bindTr (eventsOk_callTr _ (h2 z)) fun _ =>
      eventsOk_bindTr (eventsOk_callTr _ (h3 z)) fun _ =>
      eventsOk_bindTr (eventsOk_emit (h4 z _ _ _)) fun _ => ih

theorem eventsOk_mapTr {P : Event → Prop} {α β : Type} {f : α → Tr β} :
    ∀ xs : List α, (∀ x ∈ xs, EventsOk P (f x)) → EventsOk P (mapTr f xs) := by
  intro xs
  induction xs with
  | nil => intro _; exact eventsOk_pureTr []
  | cons x rest ih =>
    intro hf
    rw [mapTr]
    refine eventsOk_bindTr (hf x (List.mem_cons_self x rest)) fun y => ?_
    refine eventsOk_bindTr (ih fun a ha => hf a (List.mem_cons_of_mem x ha)) fun ys =>
      eventsOk_pureTr _

theorem eventsOk_printCmpLoop {P : Event → Prop}
    (hp : ∀ z, P (Event.printCmp z)) (zr lv lc : List ℚ) :
    ∀ idxs : List Nat, EventsOk P (printCmpLoop zr lv lc idxs) := by
  intro idxs
  induction idxs with
  | nil => exact eventsOk_pureTr ()
  | cons i rest ih =>
    rw [printCmpLoop]
    cases hz : zr.get? i with
    | none => exact eventsOk_raiseTr _
    | some z =>
      cases hl : lv.get? i with
      | none => exact eventsOk_raiseTr _
      | some a =>
        cases hc : lc.get? i with
        | none => exact eventsOk_raiseTr _
        | some b =>
          exact eventsOk_bindTr (eventsOk_emit (hp z)) fun _ => ih

theorem eventsOk_sensLoop {P : Event → Prop}
    (c : Collab Data MCMC Sampler Model) (label : String) (params : ℚ → ℚ × ℚ × ℚ)
    (h1 : ∀ a b d, P (Event.constructModel a b d))
    (h2 : ∀ z, P (Event.distanceModulusCall z))
    (h3 : ∀ l v m, P (Event.printSens l v m)) :
    ∀ vs : List ℚ, EventsOk P (sensLoop c label params vs) := by
  intro vs
  induction vs with
  | nil => exact eventsOk_pureTr ()
  | cons v rest ih =>
    rw [sensLoop]
    exact eventsOk_bindTr (eventsOk_callTr _ (h1 _ _ _)) fun _ =>
      eventsOk_bindTr (eventsOk_callTr _ (h2 _)) fun _ =>
      eventsOk_bindTr (eventsOk_emit (h3 _ _ _)) fun _ => ih

/-! ### First-component and trace-shape lemmas -/

theorem emit_fst (e : Event) : (emit e).1 = Except.ok () := rfl

theorem pureTr_fst {α : Type} (a : α) : (pureTr a).1 = Except.ok a := rfl

theorem tryExample_fst {α : Type} (n : Nat) (x : Tr α) :
    (tryExample n x).1 = Except.ok () := by
  rcases x with ⟨r, t⟩
  cases r <;> rfl

theorem bindTr_emit {β : Type} (e : Event) (f : Unit → Tr β) :
    bindTr (emit e) f = ((f ()).1, e :: (f ()).2) := rfl

theorem bindTr_eq_of_ok {α β : Type} {x : Tr α} {a : α}
    (h : x.1 = Except.ok a) (f : α → Tr β) :
    bindTr x f = ((f a).1, x.2 ++ (f a).2) := by
  unfold bindTr
  rw [h]

theorem exampleMarkers_cons_begin (n : Nat) (t : List Event) :
    exampleMarkers (Event.beginExample n :: t) = n :: exampleMarkers t := rfl

theorem exampleMarkers_cons_msg (s : String) (t : List Event) :
    exampleMarkers (Event.printMsg s :: t) = exampleMarkers t := rfl

theorem exampleMarkers_append (s t : List Event) :
    exampleMarkers (s ++ t) = exampleMarkers s ++ exampleMarkers t :=
  List.filterMap_append s t markerFn

theorem markers_eq_nil {α : Type} {x : Tr α}
    (h : EventsOk (fun e => markerFn e = none) x) : exampleMarkers x.2 = [] := by
  unfold exampleMarkers
  rw [List.filterMap_eq_nil_iff]
  exact h

theorem markers_tryExample {α : Type} (n : Nat) (x : Tr α) :
    exampleMarkers (tryExample n x).2 = exampleMarkers x.2 := by
  rcases x with ⟨r, t⟩
  cases r with
  | ok a => rfl
  | error e =>
    show exampleMarkers (t ++ [Event.printError n e]) = exampleMarkers t
    rw [exampleMarkers_append,
      show exampleMarkers [Event.printError n e] = [] from rfl, List.append_nil]

/-! ### Events emitted by each example -/

theorem eventsOk_body1 {P : Event → Prop} (c : Collab Data MCMC Sampler Model)
    (hmsg : ∀ s, P (Event.printMsg s))
    (hdata : P Event.constructData)
    (hmcmc : P Event.constructMCMC)
    (hrun : P (Event.runMCMCCall none 16 1000 200 false))
    (hget : P Event.getResultsCall)
    (hstat : ∀ p m s, P (Event.printStat p m s)) :
    EventsOk P (example_basic_mcmc_body c) := by
  unfold example_basic_mcmc_body
  exact eventsOk_bindTr (eventsOk_callTr _ hdata) fun data =>
    eventsOk_bindTr (eventsOk_callTr _ hmcmc) fun mcmc =>
    eventsOk_bindTr (eventsOk_callTr _ hrun) fun sampler =>
    eventsOk_bindTr (eventsOk_callTr _ hget) fun results =>
    eventsOk_bindTr (eventsOk_emit (hmsg _)) fun _ =>
    eventsOk_bindTr (eventsOk_printStats hstat _ _) fun _ =>
    eventsOk_pureTr _

theorem eventsOk_body2 {P : Event → Prop} (c : Collab Data MCMC Sampler Model)
    (hmsg : ∀ s, P (Event.printMsg s))
    (hinit : ∀ a b d, P (Event.printInit a b d))
    (hdata : P Event.constructData)
    (hmcmc : P Event.constructMCMC)
    (hrun : P (Event.runMCMCCall (some initial_params) 16 1000 200 false))
    (hget : P Event.getResultsCall)
    (hstat : ∀ p m s, P (Event.printStat p m s)) :
    EventsOk P (example_custom_initial_params_body c) := by
  unfold example_custom_initial_params_body
  exact eventsOk_bindTr (eventsOk_emit (hinit _ _ _)) fun _ =>
    eventsOk_bindTr (eventsOk_callTr _ hdata) fun data =>
    eventsOk_bindTr (eventsOk_callTr _ hmcmc) fun mcmc =>
    eventsOk_bindTr (eventsOk_callTr _ hrun) fun sampler =>
    eventsOk_bindTr (eventsOk_callTr _ hget) fun results =>
    eventsOk_bindTr (eventsOk_emit (hmsg _)) fun _ =>
    eventsOk_bindTr (eventsOk_printStats hstat _ _) fun _ =>
    eventsOk_pureTr _

theorem eventsOk_body3 {P : Event → Prop} (c : Collab Data MCMC Sampler Model)
    (hmsg : ∀ s, P (Event.printMsg s))
    (hcm : P (Event.constructModel (-6.73) 1e23 13.8))
    (h1 : ∀ z, P (Event.luminosityDistanceCall z))
    (h2 : ∀ z, P (Event.distanceModulusCall z))
    (h3 : ∀ z, P (Event.hubbleParameterCall z))
    (h4 : ∀ z a b d, P (Event.printPred z a b d)) :
    EventsOk P (example_model_prediction_body c) := by
  unfold example_model_prediction_body
  exact eventsOk_bindTr (eventsOk_callTr _ hcm) fun model =>
    eventsOk_bindTr (eventsOk_emit (hmsg _)) fun _ =>
    eventsOk_bindTr (eventsOk_predictLoop c model h1 h2 h3 h4 _) fun _ =>
    eventsOk_pureTr _

theorem eventsOk_body4 {P : Event → Prop} (c : Collab Data MCMC Sampler Model)
    (hmsg : ∀ s, P (Event.printMsg s))
    (hcm : P (Event.constructModel (-6.73) 1e23 13.8))
    (hdm : ∀ z, P (Event.distanceModulusCall z))
    (hlog : ∀ z ∈ z_range, P (Event.log10Call (lcdmArg z)))
    (hcmp : ∀ z, P (Event.printCmp z))
    (hsave : P (Event.savefigCall "model_comparison_example.png")) :
    EventsOk P (example_compare_models_body c) := by
  unfold example_compare_models_body
  refine eventsOk_bindTr (eventsOk_callTr _ hcm) fun lvilc_model => ?_
  refine eventsOk_bindTr (eventsOk_mapTr _ fun z hz => eventsOk_callTr _ (hdm z)) fun lvilc_mu => ?_
  refine eventsOk_bindTr (eventsOk_mapTr _ fun z hz =>
    eventsOk_bindTr (eventsOk_emit (hlog z hz)) fun _ => eventsOk_pureTr _) fun lcdm_mu => ?_
  refine eventsOk_bindTr (eventsOk_emit (hmsg _)) fun _ => ?_
  refine eventsOk_bindTr (eventsOk_printCmpLoop hcmp _ _ _ _) fun _ => ?_
  refine eventsOk_bindTr (eventsOk_callTr _ hsave) fun _ => ?_
  exact eventsOk_bindTr (eventsOk_emit (hmsg _)) fun _ => eventsOk_pureTr _

theorem eventsOk_body5 {P : Event → Prop} (c : Collab Data MCMC Sampler Model)
    (hmsg : ∀ s, P (Event.printMsg s))
    (hcm : ∀ a b d, P (Event.constructModel a b d))
    (hdm : ∀ z, P (Event.distanceModulusCall z))
    (hsens : ∀ l v m, P (Event.printSens l v m)) :
    EventsOk P (example_parameter_sensitivity_body c) := by
  unfold example_parameter_sensitivity_body
  exact eventsOk_bindTr (eventsOk_emit (hmsg _)) fun _ =>
    eventsOk_bindTr (eventsOk_sensLoop c _ _ hcm hdm hsens _) fun _ =>
    eventsOk_bindTr (eventsOk_emit (hmsg _)) fun _ =>
    eventsOk_bindTr (eventsOk_sensLoop c _ _ hcm hdm hsens _) fun _ =>
    eventsOk_bindTr (eventsOk_emit (hmsg _)) fun _ =>
    eventsOk_bindTr (eventsOk_sensLoop c _ _ hcm hdm hsens _) fun _ =>
    eventsOk_pureTr _

/-- Shorthand for the predicate "this event is not an example marker". -/
theorem markerFn_none_of_shape : ∀ s, markerFn (Event.printMsg s) = none := fun _ => rfl

theorem markers_example1 (c : Collab Data MCMC Sampler Model) :
    exampleMarkers (example_basic_mcmc c).2 = [1] := by
  unfold example_basic_mcmc
  rw [bindTr_emit, exampleMarkers_cons_begin,
    markers_eq_nil (eventsOk_body1 c (fun _ => rfl) rfl rfl rfl rfl (fun _ _ _ => rfl))]

theorem markers_example2 (c : Collab Data MCMC Sampler Model) :
    exampleMarkers (example_custom_initial_params c).2 = [2] := by
  unfold example_custom_initial_params
  rw [bindTr_emit, exampleMarkers_cons_begin,
    markers_eq_nil (eventsOk_body2 c (fun _ => rfl) (fun _ _ _ => rfl) rfl rfl rfl rfl
      (fun _ _ _ => rfl))]

theorem markers_example3 (c : Collab Data MCMC Sampler Model) :
    exampleMarkers (example_model_prediction c).2 = [3] := by
  unfold example_model_prediction
  rw [bindTr_emit, exampleMarkers_cons_begin,
    markers_eq_nil (eventsOk_body3 c (fun _ => rfl) rfl (fun _ => rfl) (fun _ => rfl)
      (fun _ => rfl) (fun _ _ _ _ => rfl))]

theorem markers_example4 (c : Collab Data MCMC Sampler Model) :
    exampleMarkers (example_compare_models c).2 = [4] := by
  unfold example_compare_models
  rw [bindTr_emit, exampleMarkers_cons_begin,
    markers_eq_nil (eventsOk_body4 c (fun _ => rfl) rfl (fun _ => rfl) (fun _ _ => rfl)
      (fun _ => rfl) rfl)]

theorem markers_example5 (c : Collab Data MCMC Sampler Model) :
    exampleMarkers (example_parameter_sensitivity c).2 = [5] := by
  unfold example_parameter_sensitivity
  rw [bindTr_emit, exampleMarkers_cons_begin,
    markers_eq_nil (eventsOk_body5 c (fun _ => rfl) (fun _ _ _ => rfl) (fun _ => rfl)
      (fun _ _ _ => rfl))]

/-- The trace of a whole run: the opening banner, the five guarded example
traces in order, and the closing banner. -/
theorem runMain_trace (c : Collab Data MCMC Sampler Model) :
    (runMain c).2 =
      Event.printMsg "LVILC MCMC Examples" ::
      ((tryExample 1 (example_basic_mcmc c)).2 ++
       ((tryExample 2 (example_custom_initial_params c)).2 ++
        ((tryExample 3 (example_model_prediction c)).2 ++
         ((tryExample 4 (example_compare_models c)).2 ++
          ((tryExample 5 (example_parameter_sensitivity c)).2 ++
           [Event.printMsg "All examples completed!"]))))) := by
  unfold runMain
  rw [bindTr_emit,
    bindTr_eq_of_ok (tryExample_fst 1 _),
    bindTr_eq_of_ok (tryExample_fst 2 _),
    bindTr_eq_of_ok (tryExample_fst 3 _),
    bindTr_eq_of_ok (tryExample_fst 4 _),
    bindTr_eq_of_ok (tryExample_fst 5 _)]
  rfl

/-- A whole run never raises: every example is inside its own handler. -/
theorem runMain_ok (c : Collab Data MCMC Sampler Model) :
    (runMain c).1 = Except.ok () := by
  unfold runMain
  rw [bindTr_emit,
    bindTr_eq_of_ok (tryExample_fst 1 _),
    bindTr_eq_of_ok (tryExample_fst 2 _),
    bindTr_eq_of_ok (tryExample_fst 3 _),
    bindTr_eq_of_ok (tryExample_fst 4 _),
    bindTr_eq_of_ok (tryExample_fst 5 _)]
  rfl

/-- The example markers of a whole run, in order. -/
theorem runMain_markers (c : Collab Data MCMC Sampler Model) :
    exampleMarkers (runMain c).2 = [1, 2, 3, 4, 5] := by
  rw [runMain_trace, exampleMarkers_cons_msg,
    exampleMarkers_append, exampleMarkers_append, exampleMarkers_append,
    exampleMarkers_append, exampleMarkers_append,
    markers_tryExample, markers_tryExample, markers_tryExample, markers_tryExample,
    markers_tryExample,
    markers_example1, markers_example2, markers_example3, markers_example4,
    markers_example5]
  rfl

/-- If a guarded example raises, its message is printed by the handler. -/
theorem printError_mem_tryExample {α : Type} {n : Nat} {x : Tr α} {e : String}
    (h : x.1 = Except.error e) : Event.printError n e ∈ (tryExample n x).2 := by
  rcases x with ⟨r, t⟩
  cases r with
  | ok a => simp at h
  | error msg =>
    have h2 : msg = e := by simpa using h
    show Event.printError n e ∈ t ++ [Event.printError n msg]
    rw [h2]
    simp

theorem tryExample_trace_mem {α : Type} {n : Nat} {x : Tr α} {e : Event}
    (h : e ∈ x.2) : e ∈ (tryExample n x).2 := by
  rcases x with ⟨r, t⟩
  cases r with
  | ok a => exact h
  | error msg =>
    show e ∈ t ++ [Event.printError n msg]
    exact List.mem_append_left _ h

/-- Composition of `EventsOk` over a whole run. -/
theorem eventsOk_runMain {P : Event → Prop} (c : Collab Data MCMC Sampler Model)
    (hmsg : ∀ s, P (Event.printMsg s))
    (herr : ∀ n m, P (Event.printError n m))
    (h1 : EventsOk P (example_basic_mcmc c))
    (h2 : EventsOk P (example_custom_initial_params c))
    (h3 : EventsOk P (example_model_prediction c))
    (h4 : EventsOk P (example_compare_models c))
    (h5 : EventsOk P (example_parameter_sensitivity c)) :
    EventsOk P (runMain c) := by
  unfold runMain
  exact eventsOk_bindTr (eventsOk_emit (hmsg _)) fun _ =>
    eventsOk_bindTr (eventsOk_tryExample h1 (herr 1)) fun _ =>
    eventsOk_bindTr (eventsOk_tryExample h2 (herr 2)) fun _ =>
    eventsOk_bindTr (eventsOk_tryExample h3 (herr 3)) fun _ =>
    eventsOk_bindTr (eventsOk_tryExample h4 (herr 4)) fun _ =>
    eventsOk_bindTr (eventsOk_tryExample h5 (herr 5)) fun _ =>
    eventsOk_emit (hmsg _)

/-- Lifting of `EventsOk` to a whole example, marker included. -/
theorem eventsOk_example {P : Event → Prop} {α : Type} {n : Nat}
    (hn : P (Event.beginExample n)) {body : Tr α} (hbody : EventsOk P body) :
    EventsOk P (bindTr (emit (Event.beginExample n)) fun _ => body) :=
  eventsOk_bindTr (eventsOk_emit hn) fun _ => hbody

theorem bindTr_pair_ok {α β : Type} (a : α) (t : List Event) (f : α → Tr β) :
    bindTr (Except.ok a, t) f = ((f a).1, t ++ (f a).2) := rfl

theorem bindTr_pair_error {α β : Type} (e : String) (t : List Event) (f : α → Tr β) :
    bindTr (Except.error e, t) f = (Except.error e, t) := rfl

theorem bindTr_fst_of_ok {α β : Type} {x : Tr α} {a : α}
    (h : x.1 = Except.ok a) (f : α → Tr β) : (bindTr x f).1 = (f a).1 := by
  rw [bindTr_eq_of_ok h]

theorem mem_bindTr_left {α β : Type} {x : Tr α} {f : α → Tr β} {e : Event}
    (h : e ∈ x.2) : e ∈ (bindTr x f).2 := by
  rcases x with ⟨r, t⟩
  cases r with
  | error msg => exact h
  | ok a => exact List.mem_append_left _ h

theorem mem_bindTr_right {α β : Type} {x : Tr α} {a : α}
    (hx : x.1 = Except.ok a) {f : α → Tr β} {e : Event}
    (h : e ∈ (f a).2) : e ∈ (bindTr x f).2 := by
  rw [bindTr_eq_of_ok hx]
  exact List.mem_append_right _ h

theorem callTr_fst {α : Type} (e : Event) (r : Except String α) :
    (callTr e r).1 = r := rfl

theorem mem_callTr {α : Type} (e : Event) (r : Except String α) :
    e ∈ (callTr e r).2 := List.mem_singleton_self e

/-! ### Computation lemmas under shape hypotheses -/

theorem printStats_spec (stats : String → ℚ × ℚ) :
    ∀ (names : List String) (results : Results),
    (∀ p ∈ names, results.lookup p = some (stats p)) →
    printStats names results =
      (Except.ok (), names.map fun p => Event.printStat p (stats p).1 (stats p).2) := by
  intro names
  induction names with
  | nil => intro results h; rfl
  | cons p rest ih =>
    intro results h
    rw [printStats, h p (List.mem_cons_self p rest)]
    show bindTr (emit (Event.printStat p (stats p).1 (stats p).2))
      (fun _ => printStats rest results) = _
    rw [bindTr_emit, ih results fun q hq => h q (List.mem_cons_of_mem p hq)]
    rfl

theorem printStats_fst_ok :
    ∀ (names : List String) (results : Results),
    (∀ p ∈ names, (results.lookup p).isSome) →
    (printStats names results).1 = Except.ok () := by
  intro names
  induction names with
  | nil => intro results h; rfl
  | cons p rest ih =>
    intro results h
    rw [printStats]
    cases hp : results.lookup p with
    | none =>
      have := h p (List.mem_cons_self p rest)
      rw [hp] at this
      simp at this
    | some s =>
      show (bindTr (emit (Event.printStat p s.1 s.2))
        (fun _ => printStats rest results)).1 = Except.ok ()
      rw [bindTr_emit]
      exact ih results fun q hq => h q (List.mem_cons_of_mem p hq)

theorem mapTr_fst_spec {α β : Type} (f : α → Tr β) (g : α → β)
    (h : ∀ x, (f x).1 = Except.ok (g x)) :
    ∀ xs : List α, (mapTr f xs).1 = Except.ok (xs.map g) := by
  intro xs
  induction xs with
  | nil => rfl
  | cons x rest ih =>
    show (bindTr (f x) fun y => bindTr (mapTr f rest) fun ys => pureTr (y :: ys)).1 =
      Except.ok ((x :: rest).map g)
    rw [bindTr_fst_of_ok (h x), bindTr_fst_of_ok ih]
    rfl

theorem printCmpLoop_fst_ok (zr lv lc : List ℚ)
    (hlv : lv.length = zr.length) (hlc : lc.length = zr.length) :
    ∀ idxs : List Nat, (∀ i ∈ idxs, i < zr.length) →
    (printCmpLoop zr lv lc idxs).1 = Except.ok () := by
  intro idxs
  induction idxs with
  | nil => intro _; rfl
  | cons i rest ih =>
    intro h
    have hi : i < zr.length := h i (List.mem_cons_self i rest)
    rw [printCmpLoop]
    cases hz : zr.get? i with
    | none =>
      rw [List.get?_eq_none] at hz
      omega
    | some z =>
      cases hl : lv.get? i with
      | none =>
        rw [List.get?_eq_none] at hl
        omega
      | some a =>
        cases hc : lc.get? i with
        | none =>
          rw [List.get?_eq_none] at hc
          omega
        | some b =>
          show (bindTr (emit (Event.printCmp z))
            (fun _ => printCmpLoop zr lv lc rest)).1 = Except.ok ()
          rw [bindTr_emit]
          exact ih fun j hj => h j (List.mem_cons_of_mem i hj)

theorem statEvents_printStat_map (stats : String → ℚ × ℚ) (names : List String) :
    statEvents (names.map fun p => Event.printStat p (stats p).1 (stats p).2) =
      names.map fun p => (p, stats p) := by
  induction names with
  | nil => rfl
  | cons p rest ih =>
    simp only [List.map_cons, statEvents, List.filterMap_cons] at ih ⊢
    rw [show statFn (Event.printStat p (stats p).1 (stats p).2) =
      some (p, stats p) from rfl, ih]

theorem filterMap_statFn_printStat (stats : String → ℚ × ℚ) (names : List String) :
    List.filterMap statFn (names.map fun p =>
      Event.printStat p (stats p).1 (stats p).2) = names.map fun p => (p, stats p) :=
  statEvents_printStat_map stats names

/-- The redshift grid has 20 points. -/
theorem z_range_length : z_range.length = 20 := by rfl

/-- Every `np.log10` argument arising from the comparison grid is strictly
positive: every grid redshift is at least 0.1. -/
theorem z_range_lcdmArg_pos : ∀ z ∈ z_range, 0 < lcdmArg z := by
  intro z hz
  rw [z_range, linspace, List.mem_map] at hz
  obtain ⟨i, hi, rfl⟩ := hz
  have hq : (0 : ℚ) ≤ (i : ℚ) := Nat.cast_nonneg i
  unfold lcdmArg
  have h19 : ((20 : ℕ) : ℚ) - 1 = 19 := by norm_num
  rw [h19]
  have hz0 : (0 : ℚ) < 0.1 + (2.0 - 0.1) * (i : ℚ) / 19 := by
    have hnn : (0 : ℚ) ≤ (2.0 - 0.1) * (i : ℚ) / 19 :=
      div_nonneg (mul_nonneg (by norm_num) hq) (by norm_num)
    have h01 : (0 : ℚ) < 0.1 := by norm_num
    linarith
  have h1 : (0 : ℚ) < 1 + (0.1 + (2.0 - 0.1) * (i : ℚ) / 19) / 2 := by linarith
  exact mul_pos (mul_pos (show (0 : ℚ) < 3000 by norm_num) hz0) h1

/-! ### Claim theorems -/

/-- C1: when the script is run as a program, each of the five example
functions runs inside its own handler: the run as a whole never raises,
all five examples are executed in order (their banner markers appear as
`[1, 2, 3, 4, 5]` in the run trace), and whenever an example raises an
exception, its message is printed by the corresponding handler. -/
theorem main_isolates_examples (c : Collab Data MCMC Sampler Model) :
    (runMain c).1 = Except.ok () ∧
    exampleMarkers (runMain c).2 = [1, 2, 3, 4, 5] ∧
    (∀ e, (example_basic_mcmc c).1 = Except.error e →
      Event.printError 1 e ∈ (runMain c).2) ∧
    (∀ e, (example_custom_initial_params c).1 = Except.error e →
      Event.printError 2 e ∈ (runMain c).2) ∧
    (∀ e, (example_model_prediction c).1 = Except.error e →
      Event.printError 3 e ∈ (runMain c).2) ∧
    (∀ e, (example_compare_models c).1 = Except.error e →
      Event.printError 4 e ∈ (runMain c).2) ∧
    (∀ e, (example_parameter_sensitivity c).1 = Except.error e →
      Event.printError 5 e ∈ (runMain c).2) := by
  refine ⟨runMain_ok c, runMain_markers c, ?_, ?_, ?_, ?_, ?_⟩
  · intro e he
    rw [runMain_trace]
    exact List.mem_cons_of_mem _ (List.mem_append_left _
      (printError_mem_tryExample he))
  · intro e he
    rw [runMain_trace]
    exact List.mem_cons_of_mem _ (List.mem_append_right _ (List.mem_append_left _
      (printError_mem_tryExample he)))
  · intro e he
    rw [runMain_trace]
    exact List.mem_cons_of_mem _ (List.mem_append_right _ (List.mem_append_right _
      (List.mem_append_left _ (printError_mem_tryExample he))))
  · intro e he
    rw [runMain_trace]
    exact List.mem_cons_of_mem _ (List.mem_append_right _ (List.mem_append_right _
      (List.mem_append_right _ (List.mem_append_left _
        (printError_mem_tryExample he)))))
  · intro e he
    rw [runMain_trace]
    exact List.mem_cons_of_mem _ (List.mem_append_right _ (List.mem_append_right _
      (List.mem_append_right _ (List.mem_append_right _ (List.mem_append_left _
        (printError_mem_tryExample he))))))

/-- Witness for C1 at a collaborator whose data loader raises: example 1
raises `no data`, and the handler prints exactly that message. -/
theorem main_isolates_examples_witness :
    Event.printError 1 "no data" ∈ (runMain failCollab).2 :=
  (main_isolates_examples failCollab).2.2.1 "no data" (by rfl)

/-- C2: running the script as a program executes exactly the five example
functions, once each, in order 1 to 5: the run trace is exactly the opening
banner, the five guarded example traces in order, and the closing banner,
and the example banner markers of the run trace are exactly
`[1, 2, 3, 4, 5]`, for every collaborator behaviour. -/
theorem main_runs_five_examples_in_order (c : Collab Data MCMC Sampler Model) :
    (runMain c).2 =
      Event.printMsg "LVILC MCMC Examples" ::
      ((tryExample 1 (example_basic_mcmc c)).2 ++
       ((tryExample 2 (example_custom_initial_params c)).2 ++
        ((tryExample 3 (example_model_prediction c)).2 ++
         ((tryExample 4 (example_compare_models c)).2 ++
          ((tryExample 5 (example_parameter_sensitivity c)).2 ++
           [Event.printMsg "All examples completed!"]))))) ∧
    exampleMarkers (runMain c).2 = [1, 2, 3, 4, 5] :=
  ⟨runMain_trace c, runMain_markers c⟩

/-- C9: over a complete run of the script, the only file that the visible
code ever writes (its only `savefig`) is `model_comparison_example.png`. -/
theorem main_writes_only_comparison_png (c : Collab Data MCMC Sampler Model) :
    ∀ s ∈ filesWritten (runMain c).2, s = "model_comparison_example.png" := by
  have h : EventsOk
      (fun e => ∀ s, fileFn e = some s → s = "model_comparison_example.png")
      (runMain c) := by
    refine eventsOk_runMain c (fun _ _ h => Option.noConfusion h)
      (fun _ _ _ h => Option.noConfusion h) ?_ ?_ ?_ ?_ ?_
    · exact eventsOk_example (fun _ h => Option.noConfusion h)
        (eventsOk_body1 c (fun _ _ h => Option.noConfusion h)
          (fun _ h => Option.noConfusion h) (fun _ h => Option.noConfusion h)
          (fun _ h => Option.noConfusion h) (fun _ h => Option.noConfusion h)
          (fun _ _ _ _ h => Option.noConfusion h))
    · exact eventsOk_example (fun _ h => Option.noConfusion h)
        (eventsOk_body2 c (fun _ _ h => Option.noConfusion h)
          (fun _ _ _ _ h => Option.noConfusion h) (fun _ h => Option.noConfusion h)
          (fun _ h => Option.noConfusion h) (fun _ h => Option.noConfusion h)
          (fun _ h => Option.noConfusion h) (fun _ _ _ _ h => Option.noConfusion h))
    · exact eventsOk_example (fun _ h => Option.noConfusion h)
        (eventsOk_body3 c (fun _ _ h => Option.noConfusion h)
          (fun _ h => Option.noConfusion h) (fun _ _ h => Option.noConfusion h)
          (fun _ _ h => Option.noConfusion h) (fun _ _ h => Option.noConfusion h)
          (fun _ _ _ _ _ h => Option.noConfusion h))
    · exact eventsOk_example (fun _ h => Option.noConfusion h)
        (eventsOk_body4 c (fun _ _ h => Option.noConfusion h)
          (fun _ h => Option.noConfusion h) (fun _ _ h => Option.noConfusion h)
          (fun _ _ _ h => Option.noConfusion h) (fun _ _ h => Option.noConfusion h)
          (fun s h => (Option.some.inj h).symm))
    · exact eventsOk_example (fun _ h => Option.noConfusion h)
        (eventsOk_body5 c (fun _ _ h => Option.noConfusion h)
          (fun _ _ _ _ h => Option.noConfusion h) (fun _ _ h => Option.noConfusion h)
          (fun _ _ _ _ h => Option.noConfusion h))
  intro s hs
  unfold filesWritten at hs
  rw [List.mem_filterMap] at hs
  obtain ⟨e, he, hfe⟩ := hs
  exact h e he s hfe

/-- Witness for C9 at the trivial collaborator, where the comparison plot
really is written. -/
theorem main_writes_only_comparison_png_witness :
    "model_comparison_example.png" ∈ filesWritten (runMain trivialCollab).2 ∧
    "model_comparison_example.png" = "model_comparison_example.png" :=
  ⟨by decide, main_writes_only_comparison_png trivialCollab
    "model_comparison_example.png" (by decide)⟩

/-- C10: the local helper `lcdm_distance_modulus` is independent of its `H0`
argument, and for every `z` and `H0` it equals
`5 * log10(3000 * z * (1 + z/2)) + 25`. -/
theorem lcdm_distance_modulus_ignores_H0 (z H0a H0b : ℝ) :
    lcdm_distance_modulus z H0a = lcdm_distance_modulus z H0b ∧
    lcdm_distance_modulus z H0a =
      5 * Real.logb 10 (3000 * z * (1 + z / 2)) + 25 :=
  ⟨rfl, rfl⟩

/-- C8: both MCMC examples construct the data loader and the MCMC driver
over it and invoke `run_mcmc` with 16 walkers, 1000 steps and burn-in 200;
example 1 passes no initial parameters and example 2 passes
`(-8.0, 5e23, 14.5)`. -/
theorem mcmc_examples_construct_and_run (c : Collab Data MCMC Sampler Model)
    (d : Data) (hd : c.CosmologyData = Except.ok d)
    (m : MCMC) (hm : c.LVILC_MCMC d = Except.ok m) :
    Event.constructData ∈ (example_basic_mcmc c).2 ∧
    Event.constructMCMC ∈ (example_basic_mcmc c).2 ∧
    Event.runMCMCCall none 16 1000 200 false ∈ (example_basic_mcmc c).2 ∧
    Event.constructData ∈ (example_custom_initial_params c).2 ∧
    Event.constructMCMC ∈ (example_custom_initial_params c).2 ∧
    Event.runMCMCCall (some (-8.0, 5e23, 14.5)) 16 1000 200 false ∈
      (example_custom_initial_params c).2 := by
  have hcd : (callTr Event.constructData c.CosmologyData).1 = Except.ok d := by
    rw [callTr_fst, hd]
  have hcm : (callTr Event.constructMCMC (c.LVILC_MCMC d)).1 = Except.ok m := by
    rw [callTr_fst, hm]
  refine ⟨?_, ?_, ?_, ?_, ?_, ?_⟩
  · exact mem_bindTr_right (emit_fst _) (mem_bindTr_left (mem_callTr _ _))
  · exact mem_bindTr_right (emit_fst _) (mem_bindTr_right hcd
      (mem_bindTr_left (mem_callTr _ _)))
  · exact mem_bindTr_right (emit_fst _) (mem_bindTr_right hcd
      (mem_bindTr_right hcm (mem_bindTr_left (mem_callTr _ _))))
  · exact mem_bindTr_right (emit_fst _) (mem_bindTr_right (emit_fst _)
      (mem_bindTr_left (mem_callTr _ _)))
  · exact mem_bindTr_right (emit_fst _) (mem_bindTr_right (emit_fst _)
      (mem_bindTr_right hcd (mem_bindTr_left (mem_callTr _ _))))
  · exact mem_bindTr_right (emit_fst _) (mem_bindTr_right (emit_fst _)
      (mem_bindTr_right hcd (mem_bindTr_right hcm
        (mem_bindTr_left (mem_callTr _ _)))))

/-- Witness for C8 at the trivial collaborator. -/
theorem mcmc_examples_construct_and_run_witness :
    Event.runMCMCCall (some (-8.0, 5e23, 14.5)) 16 1000 200 false ∈
      (example_custom_initial_params trivialCollab).2 :=
  (mcmc_examples_construct_and_run trivialCollab () rfl () rfl).2.2.2.2.2

/-- C5: if `example_compare_models` returns normally, then the run saved
`model_comparison_example.png`: that name is among the files written by its
trace. -/
theorem compare_models_saves_plot (c : Collab Data MCMC Sampler Model)
    (m : Model) (h : (example_compare_models c).1 = Except.ok m) :
    "model_comparison_example.png" ∈ filesWritten (example_compare_models c).2 := by
  unfold filesWritten
  rw [List.mem_filterMap]
  refine ⟨Event.savefigCall "model_comparison_example.png", ?_, rfl⟩
  unfold example_compare_models at h ⊢
  obtain ⟨u0, hu0, h1, -⟩ := bindTr_fst_ok h
  refine mem_bindTr_right hu0 ?_
  cases u0
  unfold example_compare_models_body at h1 ⊢
  obtain ⟨model, hA, h2, -⟩ := bindTr_fst_ok h1
  refine mem_bindTr_right hA ?_
  obtain ⟨lv, hB, h3, -⟩ := bindTr_fst_ok h2
  refine mem_bindTr_right hB ?_
  obtain ⟨lc, hC, h4, -⟩ := bindTr_fst_ok h3
  refine mem_bindTr_right hC ?_
  obtain ⟨u1, hD, h5, -⟩ := bindTr_fst_ok h4
  refine mem_bindTr_right hD ?_
  cases u1
  obtain ⟨u2, hE, h6, -⟩ := bindTr_fst_ok h5
  refine mem_bindTr_right hE ?_
  cases u2
  exact mem_bindTr_left (mem_callTr _ _)

/-- Witness for C5 at the trivial collaborator. -/
theorem compare_models_saves_plot_witness :
    "model_comparison_example.png" ∈
      filesWritten (example_compare_models trivialCollab).2 :=
  compare_models_saves_plot trivialCollab () (by rfl)

/-- C3: example 5 performs exactly three sweeps in order, H0 then M_bh then
t_fall, each at z = 1.0 on a freshly constructed model, over exactly the
literal parameter lists of the source, with nothing omitted, added or
reordered. -/
theorem sensitivity_sweeps_exact (c : Collab Data MCMC Sampler Model)
    (mk : ℚ → ℚ → ℚ → Model) (dm : Model → ℚ → ℚ)
    (hmk : ∀ a b t, c.LVILCModel a b t = Except.ok (mk a b t))
    (hdm : ∀ m z, c.distance_modulus m z = Except.ok (dm m z)) :
    sweepEvents (example_parameter_sensitivity c).2 =
      [Event.constructModel (-5.0) 1e23 13.8, Event.distanceModulusCall 1.0,
       Event.constructModel (-6.73) 1e23 13.8, Event.distanceModulusCall 1.0,
       Event.constructModel (-8.0) 1e23 13.8, Event.distanceModulusCall 1.0,
       Event.constructModel (-10.0) 1e23 13.8, Event.distanceModulusCall 1.0,
       Event.constructModel (-6.73) 1e22 13.8, Event.distanceModulusCall 1.0,
       Event.constructModel (-6.73) 1e23 13.8, Event.distanceModulusCall 1.0,
       Event.constructModel (-6.73) 1e24 13.8, Event.distanceModulusCall 1.0,
       Event.constructModel (-6.73) 1e25 13.8, Event.distanceModulusCall 1.0,
       Event.constructModel (-6.73) 1e23 12.0, Event.distanceModulusCall 1.0,
       Event.constructModel (-6.73) 1e23 13.8, Event.distanceModulusCall 1.0,
       Event.constructModel (-6.73) 1e23 15.0, Event.distanceModulusCall 1.0,
       Event.constructModel (-6.73) 1e23 17.0, Event.distanceModulusCall 1.0] := by
  simp only [example_parameter_sensitivity, example_parameter_sensitivity_body,
    sensLoop, H0_range, M_bh_range, t_fall_range, H0_base, M_bh_base, t_fall_base,
    z_test, callTr, hmk, hdm, bindTr_pair_ok, bindTr_emit, emit, pureTr,
    List.cons_append, List.nil_append, List.append_nil, List.singleton_append]
  rfl

/-- Witness for C3 at the trivial collaborator. -/
theorem sensitivity_sweeps_exact_witness :
    sweepEvents (example_parameter_sensitivity trivialCollab).2 =
      [Event.constructModel (-5.0) 1e23 13.8, Event.distanceModulusCall 1.0,
       Event.constructModel (-6.73) 1e23 13.8, Event.distanceModulusCall 1.0,
       Event.constructModel (-8.0) 1e23 13.8, Event.distanceModulusCall 1.0,
       Event.constructModel (-10.0) 1e23 13.8, Event.distanceModulusCall 1.0,
       Event.constructModel (-6.73) 1e22 13.8, Event.distanceModulusCall 1.0,
       Event.constructModel (-6.73) 1e23 13.8, Event.distanceModulusCall 1.0,
       Event.constructModel (-6.73) 1e24 13.8, Event.distanceModulusCall 1.0,
       Event.constructModel (-6.73) 1e25 13.8, Event.distanceModulusCall 1.0,
       Event.constructModel (-6.73) 1e23 12.0, Event.distanceModulusCall 1.0,
       Event.constructModel (-6.73) 1e23 13.8, Event.distanceModulusCall 1.0,
       Event.constructModel (-6.73) 1e23 15.0, Event.distanceModulusCall 1.0,
       Event.constructModel (-6.73) 1e23 17.0, Event.distanceModulusCall 1.0] :=
  sensitivity_sweeps_exact trivialCollab (fun _ _ _ => ()) (fun _ _ => 0)
    (fun _ _ _ => rfl) (fun _ _ => rfl)

/-- C7: example 3 constructs one model with exactly H0 = -6.73, M_bh = 1e23,
t_fall = 13.8, and for every z in [0.1, 0.5, 1.0, 1.5, 2.0], in order,
queries luminosity distance, distance modulus and Hubble parameter on it,
then returns the model. -/
theorem model_prediction_queries (c : Collab Data MCMC Sampler Model)
    (mo : Model) (hmk : c.LVILCModel (-6.73) 1e23 13.8 = Except.ok mo)
    (ld dm hb : ℚ → ℚ)
    (hld : ∀ z, c.luminosity_distance mo z = Except.ok (ld z))
    (hdm : ∀ z, c.distance_modulus mo z = Except.ok (dm z))
    (hhb : ∀ z, c.hubble_parameter mo z = Except.ok (hb z)) :
    (example_model_prediction c).1 = Except.ok mo ∧
    queryEvents (example_model_prediction c).2 =
      [Event.constructModel (-6.73) 1e23 13.8,
       Event.luminosityDistanceCall 0.1, Event.distanceModulusCall 0.1,
       Event.hubbleParameterCall 0.1,
       Event.luminosityDistanceCall 0.5, Event.distanceModulusCall 0.5,
       Event.hubbleParameterCall 0.5,
       Event.luminosityDistanceCall 1.0, Event.distanceModulusCall 1.0,
       Event.hubbleParameterCall 1.0,
       Event.luminosityDistanceCall 1.5, Event.distanceModulusCall 1.5,
       Event.hubbleParameterCall 1.5,
       Event.luminosityDistanceCall 2.0, Event.distanceModulusCall 2.0,
       Event.hubbleParameterCall 2.0] := by
  refine ⟨?_, ?_⟩
  · simp only [example_model_prediction, example_model_prediction_body, predictLoop,
      redshifts, callTr, hmk, hld, hdm, hhb, bindTr_pair_ok, bindTr_emit, emit, pureTr]
  · simp only [example_model_prediction, example_model_prediction_body, predictLoop,
      redshifts, callTr, hmk, hld, hdm, hhb, bindTr_pair_ok, bindTr_emit, emit, pureTr,
      List.cons_append, List.nil_append, List.append_nil, List.singleton_append]
    rfl

/-- Witness for C7 at the trivial collaborator. -/
theorem model_prediction_queries_witness :
    (example_model_prediction trivialCollab).1 = Except.ok () ∧
    queryEvents (example_model_prediction trivialCollab).2 =
      [Event.constructModel (-6.73) 1e23 13.8,
       Event.luminosityDistanceCall 0.1, Event.distanceModulusCall 0.1,
       Event.hubbleParameterCall 0.1,
       Event.luminosityDistanceCall 0.5, Event.distanceModulusCall 0.5,
       Event.hubbleParameterCall 0.5,
       Event.luminosityDistanceCall 1.0, Event.distanceModulusCall 1.0,
       Event.hubbleParameterCall 1.0,
       Event.luminosityDistanceCall 1.5, Event.distanceModulusCall 1.5,
       Event.hubbleParameterCall 1.5,
       Event.luminosityDistanceCall 2.0, Event.distanceModulusCall 2.0,
       Event.hubbleParameterCall 2.0] :=
  model_prediction_queries trivialCollab () rfl (fun _ => 0) (fun _ => 0) (fun _ => 0)
    (fun _ => rfl) (fun _ => rfl) (fun _ => rfl)

/-- C4: in both MCMC examples, the printed (median, std) row of each
parameter in `param_names` is exactly the entry of that parameter in the
dictionary returned by `get_results`, and the returned value of the example
is exactly that dictionary. -/
theorem mcmc_examples_print_accessor_results (c : Collab Data MCMC Sampler Model)
    (d : Data) (hd : c.CosmologyData = Except.ok d)
    (m : MCMC) (hm : c.LVILC_MCMC d = Except.ok m)
    (s1 : Sampler) (hs1 : c.run_mcmc m none 16 1000 200 false = Except.ok s1)
    (s2 : Sampler)
    (hs2 : c.run_mcmc m (some initial_params) 16 1000 200 false = Except.ok s2)
    (res1 res2 : Results)
    (hr1 : c.get_results m s1 = Except.ok res1)
    (hr2 : c.get_results m s2 = Except.ok res2)
    (stats1 stats2 : String → ℚ × ℚ)
    (hl1 : ∀ p ∈ c.param_names m, res1.lookup p = some (stats1 p))
    (hl2 : ∀ p ∈ c.param_names m, res2.lookup p = some (stats2 p)) :
    (example_basic_mcmc c).1 = Except.ok res1 ∧
    statEvents (example_basic_mcmc c).2 =
      (c.param_names m).map (fun p => (p, stats1 p)) ∧
    (example_custom_initial_params c).1 = Except.ok res2 ∧
    statEvents (example_custom_initial_params c).2 =
      (c.param_names m).map (fun p => (p, stats2 p)) := by
  refine ⟨?_, ?_, ?_, ?_⟩
  · simp only [example_basic_mcmc, example_basic_mcmc_body, callTr, hd, hm, hs1, hr1,
      printStats_spec stats1 (c.param_names m) res1 hl1,
      bindTr_pair_ok, bindTr_emit, emit, pureTr]
  · simp only [example_basic_mcmc, example_basic_mcmc_body, callTr, hd, hm, hs1, hr1,
      printStats_spec stats1 (c.param_names m) res1 hl1,
      bindTr_pair_ok, bindTr_emit, emit, pureTr, statEvents, List.filterMap_cons,
      statFn, List.append_nil, List.cons_append, List.nil_append,
      filterMap_statFn_printStat]
  · simp only [example_custom_initial_params, example_custom_initial_params_body,
      callTr, hd, hm, hs2, hr2,
      printStats_spec stats2 (c.param_names m) res2 hl2,
      bindTr_pair_ok, bindTr_emit, emit, pureTr]
  · simp only [example_custom_initial_params, example_custom_initial_params_body,
      callTr, hd, hm, hs2, hr2,
      printStats_spec stats2 (c.param_names m) res2 hl2,
      bindTr_pair_ok, bindTr_emit, emit, pureTr, statEvents, List.filterMap_cons,
      statFn, List.append_nil, List.cons_append, List.nil_append,
      filterMap_statFn_printStat]

/-- Witness for C4 at the trivial collaborator. -/
theorem mcmc_examples_print_accessor_results_witness :
    (example_basic_mcmc trivialCollab).1 = Except.ok
      [("H0", (-673/100, 1/2)), ("M_bh", (1e23, 1e22)), ("t_fall", (69/5, 1/2))] ∧
    statEvents (example_basic_mcmc trivialCollab).2 =
      [("H0", (-673/100, 1/2)), ("M_bh", (1e23, 1e22)), ("t_fall", (69/5, 1/2))] ∧
    (example_custom_initial_params trivialCollab).1 = Except.ok
      [("H0", (-673/100, 1/2)), ("M_bh", (1e23, 1e22)), ("t_fall", (69/5, 1/2))] ∧
    statEvents (example_custom_initial_params trivialCollab).2 =
      [("H0", (-673/100, 1/2)), ("M_bh", (1e23, 1e22)), ("t_fall", (69/5, 1/2))] := by
  have h := mcmc_examples_print_accessor_results trivialCollab () rfl () rfl () rfl
    () rfl _ _ rfl rfl statsTriv statsTriv
    (by intro p hp; fin_cases hp <;> rfl) (by intro p hp; fin_cases hp <;> rfl)
  exact h

/-- Counterexample to C6 as literally stated: with `emptyResultsCollab`
every collaborator call returns a value without raising (shown for the
calls example 1 makes), yet `example_basic_mcmc` raises a `KeyError`,
because the returned dictionary has no entry for the first parameter
name. -/
theorem basic_mcmc_raises_on_empty_results :
    emptyResultsCollab.CosmologyData = Except.ok () ∧
    emptyResultsCollab.LVILC_MCMC () = Except.ok () ∧
    emptyResultsCollab.run_mcmc () none 16 1000 200 false = Except.ok () ∧
    emptyResultsCollab.get_results () () = Except.ok [] ∧
    (example_basic_mcmc emptyResultsCollab).1 = Except.error "KeyError: H0" :=
  ⟨rfl, rfl, rfl, rfl, rfl⟩

/-- C6 (amended): if every collaborator call returns a value without
raising and, in addition, the dictionary returned by the results accessor
has an entry for every name in `param_names`, then each of the five example
functions returns without raising; and — unconditionally — every argument
to which the script applies `np.log10` over a complete run is strictly
positive (in particular for every z of the linspace grid from 0.1 to
2.0). -/
theorem examples_succeed_with_total_collaborators
    (c : Collab Data MCMC Sampler Model)
    (d : Data) (hd : c.CosmologyData = Except.ok d)
    (mM : Data → MCMC) (hm : ∀ x, c.LVILC_MCMC x = Except.ok (mM x))
    (sS : MCMC → Option (ℚ × ℚ × ℚ) → Nat → Nat → Nat → Bool → Sampler)
    (hrun : ∀ m ip nw ns bi pr,
      c.run_mcmc m ip nw ns bi pr = Except.ok (sS m ip nw ns bi pr))
    (rR : MCMC → Sampler → Results)
    (hget : ∀ m s, c.get_results m s = Except.ok (rR m s))
    (hkeys : ∀ m s, ∀ p ∈ c.param_names m, ((rR m s).lookup p).isSome)
    (mk : ℚ → ℚ → ℚ → Model)
    (hmk : ∀ a b t, c.LVILCModel a b t = Except.ok (mk a b t))
    (ld : Model → ℚ → ℚ)
    (hld : ∀ mo z, c.luminosity_distance mo z = Except.ok (ld mo z))
    (dm : Model → ℚ → ℚ)
    (hdm : ∀ mo z, c.distance_modulus mo z = Except.ok (dm mo z))
    (hb : Model → ℚ → ℚ)
    (hhb : ∀ mo z, c.hubble_parameter mo z = Except.ok (hb mo z))
    (hsv : ∀ f, c.savefig f = Except.ok ()) :
    (∃ r, (example_basic_mcmc c).1 = Except.ok r) ∧
    (∃ r, (example_custom_initial_params c).1 = Except.ok r) ∧
    (∃ mo, (example_model_prediction c).1 = Except.ok mo) ∧
    (∃ mo, (example_compare_models c).1 = Except.ok mo) ∧
    (example_parameter_sensitivity c).1 = Except.ok () ∧
    (∀ x ∈ log10Args (runMain c).2, 0 < x) := by
  refine ⟨?_, ?_, ?_, ?_, ?_, ?_⟩
  · refine ⟨rR (mM d) (sS (mM d) none 16 1000 200 false), ?_⟩
    simp only [example_basic_mcmc, example_basic_mcmc_body, callTr, hd, hm, hrun,
      hget, bindTr_pair_ok, bindTr_emit, emit, pureTr]
    rw [bindTr_fst_of_ok (printStats_fst_ok _ _ (hkeys _ _))]
  · refine ⟨rR (mM d) (sS (mM d) (some initial_params) 16 1000 200 false), ?_⟩
    simp only [example_custom_initial_params, example_custom_initial_params_body,
      callTr, hd, hm, hrun, hget, bindTr_pair_ok, bindTr_emit, emit, pureTr]
    rw [bindTr_fst_of_ok (printStats_fst_ok _ _ (hkeys _ _))]
  · refine ⟨mk (-6.73) 1e23 13.8, ?_⟩
    simp only [example_model_prediction, example_model_prediction_body, predictLoop,
      redshifts, callTr, hmk, hld, hdm, hhb, bindTr_pair_ok, bindTr_emit, emit,
      pureTr]
  · refine ⟨mk (-6.73) 1e23 13.8, ?_⟩
    have hA : (callTr (Event.constructModel (-6.73) 1e23 13.8)
        (c.LVILCModel (-6.73) 1e23 13.8)).1 = Except.ok (mk (-6.73) 1e23 13.8) := by
      rw [callTr_fst, hmk]
    have hB : (mapTr (fun z => callTr (Event.distanceModulusCall z)
        (c.distance_modulus (mk (-6.73) 1e23 13.8) z)) z_range).1 =
        Except.ok (z_range.map (dm (mk (-6.73) 1e23 13.8))) :=
      mapTr_fst_spec _ _ (fun z => by rw [callTr_fst, hdm]) z_range
    have hC : (mapTr (fun z => bindTr (emit (Event.log10Call (lcdmArg z))) fun _ =>
        pureTr (lcdmArg z)) z_range).1 = Except.ok (z_range.map lcdmArg) :=
      mapTr_fst_spec _ _ (fun z => rfl) z_range
    have hIdx : ∀ i ∈ rangeStep 0 z_range.length 4, i < z_range.length := by
      rw [z_range_length]
      decide
    have hD : (printCmpLoop z_range (z_range.map (dm (mk (-6.73) 1e23 13.8)))
        (z_range.map lcdmArg) (rangeStep 0 z_range.length 4)).1 = Except.ok () :=
      printCmpLoop_fst_ok _ _ _ (List.length_map _ _) (List.length_map _ _) _ hIdx
    have hE : (callTr (Event.savefigCall "model_comparison_example.png")
        (c.savefig "model_comparison_example.png")).1 = Except.ok () := by
      rw [callTr_fst, hsv]
    simp only [example_compare_models, example_compare_models_body,
      bindTr_fst_of_ok (emit_fst (Event.beginExample 4)), bindTr_fst_of_ok hA,
      bindTr_fst_of_ok hB, bindTr_fst_of_ok hC,
      bindTr_fst_of_ok (emit_fst (Event.printMsg "Distance modulus comparison:")),
      bindTr_fst_of_ok hD, bindTr_fst_of_ok hE,
      bindTr_fst_of_ok (emit_fst (Event.printMsg
        "Comparison plot saved to: model_comparison_example.png"))]
    rfl
  · simp only [example_parameter_sensitivity, example_parameter_sensitivity_body,
      sensLoop, H0_range, M_bh_range, t_fall_range, H0_base, M_bh_base, t_fall_base,
      z_test, callTr, hmk, hdm, bindTr_pair_ok, bindTr_emit, emit, pureTr]
  · intro x hx
    unfold log10Args at hx
    rw [List.mem_filterMap] at hx
    obtain ⟨e, he, hfe⟩ := hx
    have hP : EventsOk (fun ev => ∀ q, log10Fn ev = some q → 0 < q) (runMain c) := by
      refine eventsOk_runMain c (fun _ _ h => Option.noConfusion h)
        (fun _ _ _ h => Option.noConfusion h) ?_ ?_ ?_ ?_ ?_
      · exact eventsOk_example (fun _ h => Option.noConfusion h)
          (eventsOk_body1 c (fun _ _ h => Option.noConfusion h)
            (fun _ h => Option.noConfusion h) (fun _ h => Option.noConfusion h)
            (fun _ h => Option.noConfusion h) (fun _ h => Option.noConfusion h)
            (fun _ _ _ _ h => Option.noConfusion h))
      · exact eventsOk_example (fun _ h => Option.noConfusion h)
          (eventsOk_body2 c (fun _ _ h => Option.noConfusion h)
            (fun _ _ _ _ h => Option.noConfusion h) (fun _ h => Option.noConfusion h)
            (fun _ h => Option.noConfusion h) (fun _ h => Option.noConfusion h)
            (fun _ h => Option.noConfusion h) (fun _ _ _ _ h => Option.noConfusion h))
      · exact eventsOk_example (fun _ h => Option.noConfusion h)
          (eventsOk_body3 c (fun _ _ h => Option.noConfusion h)
            (fun _ h => Option.noConfusion h) (fun _ _ h => Option.noConfusion h)
            (fun _ _ h => Option.noConfusion h) (fun _ _ h => Option.noConfusion h)
            (fun _ _ _ _ _ h => Option.noConfusion h))
      · exact eventsOk_example (fun _ h => Option.noConfusion h)
          (eventsOk_body4 c (fun _ _ h => Option.noConfusion h)
            (fun _ h => Option.noConfusion h) (fun _ _ h => Option.noConfusion h)
            (fun z hz q hq => (Option.some.inj hq) ▸ z_range_lcdmArg_pos z hz)
            (fun _ _ h => Option.noConfusion h) (fun _ h => Option.noConfusion h))
      · exact eventsOk_example (fun _ h => Option.noConfusion h)
          (eventsOk_body5 c (fun _ _ h => Option.noConfusion h)
            (fun _ _ _ _ h => Option.noConfusion h) (fun _ _ h => Option.noConfusion h)
            (fun _ _ _ _ h => Option.noConfusion h))
    exact hP e he x hfe

/-- Witness for the amended C6 at the trivial collaborator. -/
theorem examples_succeed_with_total_collaborators_witness :
    (∃ r, (example_basic_mcmc trivialCollab).1 = Except.ok r) ∧
    (∃ r, (example_custom_initial_params trivialCollab).1 = Except.ok r) ∧
    (∃ mo, (example_model_prediction trivialCollab).1 = Except.ok mo) ∧
    (∃ mo, (example_compare_models trivialCollab).1 = Except.ok mo) ∧
    (example_parameter_sensitivity trivialCollab).1 = Except.ok () ∧
    (∀ x ∈ log10Args (runMain trivialCollab).2, 0 < x) :=
  examples_succeed_with_total_collaborators trivialCollab () rfl
    (fun _ => ()) (fun _ => rfl)
    (fun _ _ _ _ _ _ => ()) (fun _ _ _ _ _ _ => rfl)
    (fun _ _ => [("H0", (-673/100, 1/2)), ("M_bh", (1e23, 1e22)),
      ("t_fall", (69/5, 1/2))])
    (fun _ _ => rfl)
    (by intro m s p hp; fin_cases hp <;> rfl)
    (fun _ _ _ => ()) (fun _ _ _ => rfl)
    (fun _ _ => 0) (fun _ _ => rfl)
    (fun _ _ => 0) (fun _ _ => rfl)
    (fun _ _ => 0) (fun _ _ => rfl)
    (fun _ => rfl)

end LVILC
